import Mathlib

/-!
Verification of the server core of the AI Inbox and Calendar Assistant web app.

The development shallowly embeds the relevant server modules:

* the connection store (`server/storage.ts`, `MemStorage` and `DatabaseStorage`),
* the OAuth routes and token-refresh gate (`server/services/oauthService.ts`),
* the free-time computation (`server/services/calendarService.ts`),
* the AI fallback generators (`server/services/openai.ts`).

Conventions: machine timestamps are integer milliseconds (JS `Date.getTime()`),
user and row ids are naturals, fallible operations return `Except`/`Option`.
External network calls (token exchange, token refresh, identity lookup) are
modelled as explicit outcome parameters, and `Math.random` as a stream of
boolean comparator outcomes.
-/

namespace InboxCal

/-- Calendar event row (`calendar_events` in `shared/schema.ts`); only the
fields read by the verified code paths are carried (`description`, `location`,
`attendees`, `isAllDay`, `tags` are never inspected by them). Timestamps are
in milliseconds. -/
structure CalendarEvent where
  id : Nat
  userId : Nat
  title : String
  startTime : Int
  endTime : Int
  deriving Repr, DecidableEq

/-- One element of the list returned by `getFreeTimeBlocks`
(`calendarService.ts`); the source also carries the constant fields
`description = "Free Time Block"` and `isFree = true`, which are omitted. -/
structure FreeBlock where
  startTime : Int
  endTime : Int
  deriving Repr, DecidableEq

/-- Milliseconds per minute, used by the duration filter of the source. -/
def msPerMinute : Int := 60000

/-- The working-day start used by `getFreeTimeBlocks`: 09:00 local, given
`day0`, the midnight timestamp of the requested date
(`workDayStart.setHours(9, 0, 0, 0)`). -/
def workDayStartMs (day0 : Int) : Int := day0 + 540 * msPerMinute

/-- The working-day end used by `getFreeTimeBlocks`: 17:00 local
(`workDayEnd.setHours(17, 0, 0, 0)`). -/
def workDayEndMs (day0 : Int) : Int := day0 + 1020 * msPerMinute

/-- Insert an event into a list that is already ascending by `startTime`,
after any event with an equal start. Together with `sortByStart` this models
the stable `events.sort((a, b) => new Date(a.startTime).getTime() - new Date(b.startTime).getTime())`. -/
def insertByStart (e : CalendarEvent) : List CalendarEvent → List CalendarEvent
  | [] => [e]
  | f :: fs => if e.startTime ≤ f.startTime then e :: f :: fs else f :: insertByStart e fs

/-- Stable sort of events ascending by `startTime` (JS `Array.prototype.sort`
with the numeric start-time comparator). -/
def sortByStart : List CalendarEvent → List CalendarEvent
  | [] => []
  | e :: es => insertByStart e (sortByStart es)

/-- The gap-scan loop of `getFreeTimeBlocks`: walk the (sorted) events keeping
the current free boundary `c`; emit a block when an event starts strictly after
`c` and no later than `wde` (`eventStart > currentTime && eventStart <= workDayEnd`),
then advance `c` to the event end if later (`if (eventEnd > currentTime)`);
after the loop emit a final block up to `wde` if room remains
(`if (currentTime < workDayEnd)`). -/
def scanFreeBlocks (wde : Int) : List CalendarEvent → Int → List FreeBlock
  | [], c => if c < wde then [⟨c, wde⟩] else []
  | e :: es, c =>
      (if c < e.startTime ∧ e.startTime ≤ wde then [(⟨c, e.startTime⟩ : FreeBlock)] else [])
        ++ scanFreeBlocks wde es (if c < e.endTime then e.endTime else c)

/-- Free-time computation of `calendarService.ts` (`getFreeTimeBlocks`),
as a function of the day midnight `day0` and the day's events: an empty event
list returns the whole 09:00 to 17:00 window as one block; otherwise the events
are sorted by start time, scanned for gaps, and blocks shorter than 30 minutes
are filtered out (`durationMinutes >= 30` with
`durationMinutes = (endTime - startTime) / (60 * 1000)`). -/
def getFreeTimeBlocks (day0 : Int) (events : List CalendarEvent) : List FreeBlock :=
  if events = [] then
    [⟨workDayStartMs day0, workDayEndMs day0⟩]
  else
    (scanFreeBlocks (workDayEndMs day0) (sortByStart events) (workDayStartMs day0)).filter
      (fun b => 30 ≤ (b.endTime - b.startTime) / (60 * 1000))

theorem mem_insertByStart {a e : CalendarEvent} {l : List CalendarEvent} :
    a ∈ insertByStart e l ↔ a = e ∨ a ∈ l := by
  induction l with
  | nil => simp [insertByStart]
  | cons f fs ih =>
    simp only [insertByStart]
    split
    · simp
    · simp only [List.mem_cons, ih]
      tauto

theorem mem_sortByStart {a : CalendarEvent} {l : List CalendarEvent} :
    a ∈ sortByStart l ↔ a ∈ l := by
  induction l with
  | nil => simp [sortByStart]
  | cons e es ih => simp [sortByStart, mem_insertByStart, ih]

theorem scanFreeBlocks_bounds {wde : Int} :
    ∀ {es : List CalendarEvent} {c : Int} {b : FreeBlock}, b ∈ scanFreeBlocks wde es c →
      c ≤ b.startTime ∧ b.startTime < b.endTime ∧ b.endTime ≤ wde
  | [], c, b, hb => by
      simp only [scanFreeBlocks] at hb
      split at hb
      · next h =>
          simp only [List.mem_singleton] at hb
          subst hb
          exact ⟨le_refl _, h, le_refl _⟩
      · simp at hb
  | e :: es, c, b, hb => by
      simp only [scanFreeBlocks, List.mem_append] at hb
      rcases hb with hb | hb
      · split at hb
        · next h =>
            simp only [List.mem_singleton] at hb
            subst hb
            exact ⟨le_refl _, h.1, h.2⟩
        · simp at hb
      · have h2 := scanFreeBlocks_bounds hb
        refine ⟨le_trans ?_ h2.1, h2.2⟩
        split <;> omega

theorem scanFreeBlocks_pairwise {wde : Int} :
    ∀ {es : List CalendarEvent} {c : Int}, (∀ e ∈ es, e.startTime ≤ e.endTime) →
      List.Pairwise (fun x y => x.endTime ≤ y.startTime) (scanFreeBlocks wde es c)
  | [], c, _ => by
      simp only [scanFreeBlocks]
      split <;> simp
  | e :: es, c, hwf => by
      have hrest :
          List.Pairwise (fun x y => x.endTime ≤ y.startTime)
            (scanFreeBlocks wde es (if c < e.endTime then e.endTime else c)) :=
        scanFreeBlocks_pairwise (fun x hx => hwf x (List.mem_cons_of_mem _ hx))
      have he : e.startTime ≤ e.endTime := hwf e (List.mem_cons_self _ _)
      simp only [scanFreeBlocks]
      split
      · next h =>
          simp only [List.singleton_append]
          refine List.Pairwise.cons ?_ hrest
          intro b hb
          have hb2 := scanFreeBlocks_bounds hb
          have hc : (if c < e.endTime then e.endTime else c) ≤ b.startTime := hb2.1
          simp only
          split at hc <;> omega
      · simpa using hrest

theorem getFreeTimeBlocks_mem {day0 : Int} {events : List CalendarEvent} {b : FreeBlock}
    (hb : b ∈ getFreeTimeBlocks day0 events) :
    workDayStartMs day0 ≤ b.startTime ∧ b.startTime < b.endTime ∧
      b.endTime ≤ workDayEndMs day0 ∧ 30 * msPerMinute ≤ b.endTime - b.startTime := by
  simp only [getFreeTimeBlocks] at hb
  split at hb
  · simp only [List.mem_singleton] at hb
    subst hb
    refine ⟨le_refl _, ?_, le_refl _, ?_⟩ <;>
      simp [workDayStartMs, workDayEndMs, msPerMinute]
  · rw [List.mem_filter] at hb
    have h1 := scanFreeBlocks_bounds hb.1
    have h2 := hb.2
    simp only [decide_eq_true_eq] at h2
    refine ⟨h1.1, h1.2.1, h1.2.2, ?_⟩
    simp only [msPerMinute]
    omega

/-- Claim C4: for a day whose events are 09:00 to 10:00 and 14:00 to 15:00,
with business hours 09:00 to 17:00 (here the day midnight is timestamp 0 so
09:00 is 32400000 ms and so on). -/
def c4Events : List CalendarEvent :=
  [⟨1, 1, "Morning meeting", 32400000, 36000000⟩,
   ⟨2, 1, "Afternoon meeting", 50400000, 54000000⟩]

/-- Claim C4: a day with a single 20-minute candidate gap, from 10:00 to 10:20
(event one 09:00 to 10:00, event two 10:20 to 17:00). -/
def c4GapEvents : List CalendarEvent :=
  [⟨1, 1, "First", 32400000, 36000000⟩,
   ⟨2, 1, "Second", 37200000, 61200000⟩]

/-- C4: for events exactly 09:00 to 10:00 and 14:00 to 15:00 inside the 09:00
to 17:00 window, `getFreeTimeBlocks` returns exactly the blocks 10:00 to 14:00
(240 minutes) and 15:00 to 17:00 (120 minutes), in that order; and a 20-minute
candidate gap is excluded, as is, in general, every gap shorter than 30
minutes. -/
theorem getFreeTimeBlocks_example :
    getFreeTimeBlocks 0 c4Events = [⟨36000000, 50400000⟩, ⟨54000000, 61200000⟩] ∧
    ((50400000 : Int) - 36000000) / msPerMinute = 240 ∧
    ((61200000 : Int) - 54000000) / msPerMinute = 120 ∧
    getFreeTimeBlocks 0 c4GapEvents = [] ∧
    ∀ (day0 : Int) (events : List CalendarEvent) (b : FreeBlock),
      b ∈ getFreeTimeBlocks day0 events → 30 * msPerMinute ≤ b.endTime - b.startTime :=
  ⟨by decide, by decide, by decide, by decide,
   fun _ _ _ hb => (getFreeTimeBlocks_mem hb).2.2.2⟩

/-- C4 witness: the general minimum-duration conjunct applied to the concrete
empty-events day, whose single free block spans the whole business window. -/
theorem getFreeTimeBlocks_example_witness :
    30 * msPerMinute ≤ (61200000 : Int) - 32400000 :=
  getFreeTimeBlocks_example.2.2.2.2 0 [] ⟨32400000, 61200000⟩ (by decide)

/-- Claim C5 counterexample input: the first event is malformed, ending
(09:30) before it starts (10:00); the second runs 11:00 to 12:00. -/
def badEvents : List CalendarEvent :=
  [⟨1, 1, "Reversed", 36000000, 34200000⟩,
   ⟨2, 1, "Late morning", 39600000, 43200000⟩]

/-- C5 counterexample: on an event list containing an event whose end precedes
its start, `getFreeTimeBlocks` returns blocks 09:00 to 10:00 and 09:30 to
11:00, which overlap, so the returned blocks are not pairwise disjoint for
every input event list. -/
theorem getFreeTimeBlocks_not_always_disjoint :
    getFreeTimeBlocks 0 badEvents =
      [⟨32400000, 36000000⟩, ⟨34200000, 39600000⟩, ⟨43200000, 61200000⟩] ∧
    ¬ List.Pairwise (fun x y => x.endTime ≤ y.startTime ∨ y.endTime ≤ x.startTime)
        (getFreeTimeBlocks 0 badEvents) := by
  refine ⟨by decide, ?_⟩
  intro h
  rw [show getFreeTimeBlocks 0 badEvents =
      [⟨32400000, 36000000⟩, ⟨34200000, 39600000⟩, ⟨43200000, 61200000⟩] from by decide] at h
  rcases List.pairwise_cons.mp h with ⟨h01, -⟩
  have := h01 ⟨34200000, 39600000⟩ (by simp)
  simp at this

/-- C5 amended: for every input event list in which each event ends no earlier
than it starts, every block returned by `getFreeTimeBlocks` lies within the
09:00 to 17:00 window, lasts at least 30 minutes, has start strictly before
end, and the blocks are pairwise disjoint and strictly ascending by start
time. -/
theorem getFreeTimeBlocks_invariant (day0 : Int) (events : List CalendarEvent)
    (hwf : ∀ e ∈ events, e.startTime ≤ e.endTime) :
    List.Pairwise (fun x y => x.endTime ≤ y.startTime) (getFreeTimeBlocks day0 events) ∧
    List.Pairwise (fun x y => x.startTime < y.startTime) (getFreeTimeBlocks day0 events) ∧
    ∀ b ∈ getFreeTimeBlocks day0 events,
      workDayStartMs day0 ≤ b.startTime ∧ b.endTime ≤ workDayEndMs day0 ∧
        b.startTime < b.endTime ∧ 30 * msPerMinute ≤ b.endTime - b.startTime := by
  have hdisj :
      List.Pairwise (fun x y => x.endTime ≤ y.startTime) (getFreeTimeBlocks day0 events) := by
    simp only [getFreeTimeBlocks]
    split
    · simp
    · exact (scanFreeBlocks_pairwise
        (fun e he => hwf e (mem_sortByStart.mp he))).sublist (List.filter_sublist _)
  refine ⟨hdisj, ?_, ?_⟩
  · refine hdisj.imp_of_mem ?_
    intro x y hx _ hxy
    have := (getFreeTimeBlocks_mem hx).2.1
    omega
  · intro b hb
    have h := getFreeTimeBlocks_mem hb
    exact ⟨h.1, h.2.2.1, h.2.1, h.2.2.2⟩

/-- C5 witness: the amended invariant applied to the concrete two-event day of
C4, whose events are well formed. -/
theorem getFreeTimeBlocks_invariant_witness :
    List.Pairwise (fun x y => x.endTime ≤ y.startTime) (getFreeTimeBlocks 0 c4Events) :=
  (getFreeTimeBlocks_invariant 0 c4Events (by decide)).1

/-- User row (`users` in `shared/schema.ts`); only the fields read by the
OAuth flows are carried. -/
structure User where
  id : Nat
  email : String
  deriving Repr, DecidableEq

/-- Connection row (`connections` in `shared/schema.ts`): one authorized link
between a local user and one external service. `refreshToken` is nullable in
the schema; `tokenExpiry` is a millisecond timestamp. -/
structure Connection where
  id : Nat
  userId : Nat
  service : String
  accessToken : String
  refreshToken : Option String
  tokenExpiry : Int
  email : String
  createdAt : Int
  deriving Repr, DecidableEq

/-- Insert payload for a Connection (`InsertConnection`): everything but the
generated `id` and `createdAt`. -/
structure InsertConnection where
  userId : Nat
  service : String
  accessToken : String
  refreshToken : Option String
  tokenExpiry : Int
  email : String
  deriving Repr, DecidableEq

/-- The in-memory connection table of `MemStorage`, as a list in map-iteration
(insertion) order. -/
abbrev ConnStore := List Connection

/-- Storage operation `getUser`: look up a user by id. -/
def getUser (users : List User) (id : Nat) : Option User :=
  users.find? (fun u => u.id == id)

/-- Storage operation `getConnection`: the first stored connection matching
the (user, service) pair, in map-iteration order
(`Array.from(this.connections.values()).find(...)`). -/
def getConnection (conns : ConnStore) (userId : Nat) (service : String) : Option Connection :=
  conns.find? (fun c => c.userId == userId && c.service == service)

/-- Storage operation `getConnectionsByUserId`: all connections of a user. -/
def getConnectionsByUserId (conns : ConnStore) (userId : Nat) : List Connection :=
  conns.filter (fun c => c.userId == userId)

/-- Storage operation `createConnection`: assign the next counter value as id,
stamp `createdAt`, and add the row; returns the new store and the bumped
counter (`this.connectionIdCounter++`). -/
def createConnection (conns : ConnStore) (nextId : Nat) (now : Int)
    (ins : InsertConnection) : ConnStore × Nat :=
  (conns ++ [⟨nextId, ins.userId, ins.service, ins.accessToken, ins.refreshToken,
    ins.tokenExpiry, ins.email, now⟩], nextId + 1)

/-- Storage operation `removeConnection`: look up the (user, service)
connection; if absent, throw `Connection not found`; otherwise delete the row
with that id (the map is keyed by id). -/
def removeConnection (conns : ConnStore) (userId : Nat) (service : String) :
    Except String ConnStore :=
  match getConnection conns userId service with
  | none => .error "Connection not found"
  | some c => .ok (conns.filter (fun x => x.id != c.id))

/-- The paired sub-service removed by the disconnect endpoint's cascade
(`POST /api/auth/disconnect/:service` in `oauthService.ts`). -/
def pairedService (service : String) : Option String :=
  if service = "gmail" then some "google_calendar"
  else if service = "google_calendar" then some "gmail"
  else if service = "outlook" then some "outlook_calendar"
  else if service = "outlook_calendar" then some "outlook"
  else none

/-- Outcome of `POST /api/auth/disconnect/:service` for an authenticated user:
`ok = true` is the 200 JSON message, `ok = false` the 500 error JSON. -/
structure DisconnectResult where
  ok : Bool
  conns : ConnStore
  deriving Repr, DecidableEq

/-- The disconnect endpoint: remove the named connection (a thrown error is
caught and answered with status 500); on success, best-effort remove the
paired sub-service, swallowing its failure
(`.catch(() => \x7b\x7d)`), and answer 200. -/
def disconnectService (conns : ConnStore) (userId : Nat) (service : String) :
    DisconnectResult :=
  match removeConnection conns userId service with
  | .error _ => ⟨false, conns⟩
  | .ok conns1 =>
    match pairedService service with
    | none => ⟨true, conns1⟩
    | some p =>
      match removeConnection conns1 userId p with
      | .error _ => ⟨true, conns1⟩
      | .ok conns2 => ⟨true, conns2⟩

theorem getConnection_eq_none {conns : ConnStore} {u : Nat} {s : String} :
    getConnection conns u s = none ↔ ∀ c ∈ conns, ¬(c.userId = u ∧ c.service = s) := by
  unfold getConnection
  rw [List.find?_eq_none]
  constructor
  · intro h c hc hcs
    have := h c hc
    simp [hcs.1, hcs.2] at this
  · intro h c hc
    simp only [Bool.and_eq_true, beq_iff_eq]
    intro hh
    exact h c hc ⟨hh.1, hh.2⟩

theorem getConnection_none_subset {conns conns' : ConnStore} {u : Nat} {s : String}
    (h : getConnection conns u s = none) (hsub : ∀ x ∈ conns', x ∈ conns) :
    getConnection conns' u s = none := by
  rw [getConnection_eq_none] at h ⊢
  exact fun c hc => h c (hsub c hc)

theorem mem_of_removeConnection_ok {conns conns' : ConnStore} {u : Nat} {s : String}
    (h : removeConnection conns u s = .ok conns') : ∀ x ∈ conns', x ∈ conns := by
  unfold removeConnection at h
  cases hm : getConnection conns u s with
  | none => rw [hm] at h; exact absurd h (by simp)
  | some c =>
    rw [hm] at h
    simp only [Except.ok.injEq] at h
    subst h
    exact fun x hx => (List.mem_filter.mp hx).1

theorem getConnection_none_of_removeConnection_error {conns : ConnStore} {u : Nat} {s : String}
    {e : String} (h : removeConnection conns u s = .error e) :
    getConnection conns u s = none := by
  unfold removeConnection at h
  cases hm : getConnection conns u s with
  | none => rfl
  | some c => rw [hm] at h; exact absurd h (by simp)

theorem removeConnection_ok_none {conns conns' : ConnStore} {u : Nat} {s : String}
    (huniq : ∀ c ∈ conns, ∀ d ∈ conns, c.userId = d.userId → c.service = d.service → c = d)
    (h : removeConnection conns u s = .ok conns') :
    getConnection conns' u s = none := by
  unfold removeConnection at h
  cases hm : getConnection conns u s with
  | none => rw [hm] at h; exact absurd h (by simp)
  | some c =>
    rw [hm] at h
    simp only [Except.ok.injEq] at h
    subst h
    unfold getConnection at hm
    have hcmem : c ∈ conns := List.mem_of_find?_eq_some hm
    have hcp := List.find?_some hm
    simp only [Bool.and_eq_true, beq_iff_eq] at hcp
    rw [getConnection_eq_none]
    intro x hx hxs
    have hxf := List.mem_filter.mp hx
    have hxc : x = c :=
      huniq x hxf.1 c hcmem (hxs.1.trans hcp.1.symm) (hxs.2.trans hcp.2.symm)
    subst hxc
    simp at hxf

theorem disconnectService_removes_pair {conns : ConnStore} {u : Nat} {s p : String}
    (hp : pairedService s = some p)
    (huniq : ∀ c ∈ conns, ∀ d ∈ conns, c.userId = d.userId → c.service = d.service → c = d)
    (hok : (disconnectService conns u s).ok = true) :
    getConnection (disconnectService conns u s).conns u s = none ∧
    getConnection (disconnectService conns u s).conns u p = none := by
  cases h1 : removeConnection conns u s with
  | error e =>
    have hres : disconnectService conns u s = ⟨false, conns⟩ := by
      simp only [disconnectService, h1]
    rw [hres] at hok
    exact absurd hok (by simp)
  | ok conns1 =>
    have hsub1 : ∀ x ∈ conns1, x ∈ conns := mem_of_removeConnection_ok h1
    have hnone1 : getConnection conns1 u s = none := removeConnection_ok_none huniq h1
    cases h2 : removeConnection conns1 u p with
    | error e =>
      have hres : disconnectService conns u s = ⟨true, conns1⟩ := by
        simp only [disconnectService, h1, hp, h2]
      rw [hres]
      exact ⟨hnone1, getConnection_none_of_removeConnection_error h2⟩
    | ok conns2 =>
      have hres : disconnectService conns u s = ⟨true, conns2⟩ := by
        simp only [disconnectService, h1, hp, h2]
      rw [hres]
      have hsub2 : ∀ x ∈ conns2, x ∈ conns1 := mem_of_removeConnection_ok h2
      have huniq1 : ∀ c ∈ conns1, ∀ d ∈ conns1,
          c.userId = d.userId → c.service = d.service → c = d :=
        fun c hc d hd => huniq c (hsub1 c hc) d (hsub1 d hd)
      exact ⟨getConnection_none_subset hnone1 hsub2, removeConnection_ok_none huniq1 h2⟩

/-- C6: assuming the data-model invariant of at most one Connection per
(user, service) pair, a successful disconnect of a mail service also removes
the paired calendar Connection of the same provider (gmail with
google_calendar, outlook with outlook_calendar), and when the paired record is
absent its removal failure is swallowed: the endpoint still answers
success. -/
theorem disconnect_cascade (conns : ConnStore) (u : Nat)
    (huniq : ∀ c ∈ conns, ∀ d ∈ conns, c.userId = d.userId → c.service = d.service → c = d) :
    ((disconnectService conns u "gmail").ok = true →
        getConnection (disconnectService conns u "gmail").conns u "gmail" = none ∧
        getConnection (disconnectService conns u "gmail").conns u "google_calendar" = none) ∧
    ((disconnectService conns u "outlook").ok = true →
        getConnection (disconnectService conns u "outlook").conns u "outlook" = none ∧
        getConnection (disconnectService conns u "outlook").conns u "outlook_calendar" = none) ∧
    (∀ c, getConnection conns u "gmail" = some c →
        getConnection conns u "google_calendar" = none →
        (disconnectService conns u "gmail").ok = true ∧
        (disconnectService conns u "gmail").conns =
          conns.filter (fun x => x.id != c.id)) := by
  refine ⟨fun hok => disconnectService_removes_pair rfl huniq hok,
    fun hok => disconnectService_removes_pair rfl huniq hok, ?_⟩
  intro c hc hnone
  have h1 : removeConnection conns u "gmail" = .ok (conns.filter (fun x => x.id != c.id)) := by
    unfold removeConnection; rw [hc]
  have hsub : ∀ x ∈ conns.filter (fun x => x.id != c.id), x ∈ conns :=
    fun x hx => (List.mem_filter.mp hx).1
  have h2 : removeConnection (conns.filter (fun x => x.id != c.id)) u "google_calendar" =
      .error "Connection not found" := by
    unfold removeConnection; rw [getConnection_none_subset hnone hsub]
  have hres : disconnectService conns u "gmail" =
      ⟨true, conns.filter (fun x => x.id != c.id)⟩ := by
    simp only [disconnectService, h1,
      show pairedService "gmail" = some "google_calendar" from rfl, h2]
  rw [hres]
  exact ⟨rfl, rfl⟩

/-- C6 witness: a store holding a lone gmail connection of user 1: disconnect
succeeds, with the paired-record failure swallowed. -/
theorem disconnect_cascade_witness :
    (disconnectService [⟨7, 1, "gmail", "tok", some "ref", 1000, "a@b", 0⟩] 1 "gmail").ok =
      true :=
  ((disconnect_cascade [⟨7, 1, "gmail", "tok", some "ref", 1000, "a@b", 0⟩] 1
      (by decide)).2.2 ⟨7, 1, "gmail", "tok", some "ref", 1000, "a@b", 0⟩
      (by decide) (by decide)).1

/-- C7 counterexample: on a store with no connections at all,
`removeConnection` does not complete silently: it throws
`Connection not found`, and the disconnect endpoint built on it answers with
the 500 error outcome, so the claim as stated is false. -/
theorem removeConnection_absent_counterexample :
    removeConnection [] 1 "gmail" = .error "Connection not found" ∧
    disconnectService [] 1 "gmail" = ⟨false, []⟩ :=
  ⟨rfl, rfl⟩

/-- C7 amended: disconnecting a service for which the user has no stored
Connection leaves the store unchanged, but it does raise: `removeConnection`
throws `Connection not found`, and the endpoint catches the error and answers
with the 500 error outcome instead of success. -/
theorem removeConnection_absent (conns : ConnStore) (u : Nat) (s : String)
    (h : getConnection conns u s = none) :
    removeConnection conns u s = .error "Connection not found" ∧
    disconnectService conns u s = ⟨false, conns⟩ := by
  have h1 : removeConnection conns u s = .error "Connection not found" := by
    unfold removeConnection; rw [h]
  refine ⟨h1, ?_⟩
  unfold disconnectService
  rw [h1]

/-- C7 witness: disconnecting gmail on a store holding only an unrelated
outlook connection of another user. -/
theorem removeConnection_absent_witness :
    disconnectService [⟨3, 2, "outlook", "tok", none, 5, "c@d", 0⟩] 1 "gmail" =
      ⟨false, [⟨3, 2, "outlook", "tok", none, 5, "c@d", 0⟩]⟩ :=
  (removeConnection_absent [⟨3, 2, "outlook", "tok", none, 5, "c@d", 0⟩] 1 "gmail"
    (by decide)).2

/-- HTTP outcome of an OAuth route: a redirect with a status and location, or
a JSON reply with a status (bodies are not modelled). -/
inductive HttpOutcome where
  | redirect (status : Nat) (location : String)
  | json (status : Nat)
  deriving Repr, DecidableEq

/-- Simulated OAuth flow (`handleOAuthSimulation` in `oauthService.ts`):
look up `req.user.id` (an absent `req.user` makes the access throw, which the
catch converts to the 500 JSON error), 404 when the user row is missing;
otherwise, for each of the two sub-services of the provider, create a
Connection with the simulated token pair and expiry one hour from now, but
only if one does not already exist; finally redirect to the settings page. -/
def handleOAuthSimulation (users : List User) (conns : ConnStore) (nextId : Nat)
    (now : Int) (reqUser : Option Nat) (service : String) :
    HttpOutcome × ConnStore × Nat :=
  match reqUser with
  | none => (.json 500, conns, nextId)
  | some userId =>
    match getUser users userId with
    | none => (.json 404, conns, nextId)
    | some user =>
      let expiryDate := now + 3600 * 1000
      if service = "google" then
        let s1 :=
          match getConnection conns userId "gmail" with
          | some _ => (conns, nextId)
          | none => createConnection conns nextId now
              ⟨userId, "gmail", "simulated-access-token", some "simulated-refresh-token",
                expiryDate, user.email⟩
        let s2 :=
          match getConnection s1.1 userId "google_calendar" with
          | some _ => s1
          | none => createConnection s1.1 s1.2 now
              ⟨userId, "google_calendar", "simulated-access-token",
                some "simulated-refresh-token", expiryDate, user.email⟩
        (.redirect 302 "/settings?success=simulated_oauth", s2.1, s2.2)
      else if service = "microsoft" then
        let s1 :=
          match getConnection conns userId "outlook" with
          | some _ => (conns, nextId)
          | none => createConnection conns nextId now
              ⟨userId, "outlook", "simulated-access-token", some "simulated-refresh-token",
                expiryDate, user.email⟩
        let s2 :=
          match getConnection s1.1 userId "outlook_calendar" with
          | some _ => s1
          | none => createConnection s1.1 s1.2 now
              ⟨userId, "outlook_calendar", "simulated-access-token",
                some "simulated-refresh-token", expiryDate, user.email⟩
        (.redirect 302 "/settings?success=simulated_oauth", s2.1, s2.2)
      else
        (.redirect 302 "/settings?success=simulated_oauth", conns, nextId)

/-- Token pair returned by the Google code exchange
(`oauth2Client.getToken`). -/
structure GTokens where
  access_token : Option String
  refresh_token : Option String
  expiry_date : Option Int
  deriving Repr, DecidableEq

/-- Token payload parsed from the Microsoft token endpoint response. -/
structure MsTokens where
  access_token : Option String
  refresh_token : Option String
  expires_in : Int
  deriving Repr, DecidableEq

/-- Result of an OAuth callback handler: the HTTP outcome, the session
`oauthState` (the stashed user id) after the handler ran, the connection
store, and the id counter. -/
structure CallbackResult where
  response : HttpOutcome
  oauthState : Option Nat
  conns : ConnStore
  nextId : Nat
  deriving Repr, DecidableEq

/-- Google OAuth callback (`GET /api/auth/google/callback`): 400 when the code
or the stashed session state is missing; simulation path when Google
credentials are not configured; then, inside try/catch: 404 when the stashed
user does not exist, code exchange (a thrown error is caught as the 500
redirect), 400 when the returned access or refresh token is missing, identity
lookup (a thrown error is caught as the 500 redirect), 400 when the identity
email is missing; on success one gmail and one google_calendar Connection are
created (expiry from the provider or one hour as default), the session state
is deleted, and the handler redirects with the success marker. -/
def googleCallback (users : List User) (conns : ConnStore) (nextId : Nat) (now : Int)
    (hasGoogleCreds : Bool) (code : Option String) (oauthState : Option Nat)
    (reqUser : Option Nat) (exchange : Except Unit GTokens)
    (userinfoEmail : Except Unit (Option String)) : CallbackResult :=
  match code, oauthState with
  | none, _ => ⟨.redirect 400 "/settings?error=oauth_failed", oauthState, conns, nextId⟩
  | some _, none => ⟨.redirect 400 "/settings?error=oauth_failed", oauthState, conns, nextId⟩
  | some _, some userId =>
    if hasGoogleCreds = false then
      let r := handleOAuthSimulation users conns nextId now reqUser "google"
      ⟨r.1, some userId, r.2.1, r.2.2⟩
    else
      match getUser users userId with
      | none => ⟨.redirect 404 "/settings?error=user_not_found", some userId, conns, nextId⟩
      | some _ =>
        match exchange with
        | .error _ => ⟨.redirect 500 "/settings?error=oauth_failed", some userId, conns, nextId⟩
        | .ok tokens =>
          match tokens.access_token, tokens.refresh_token with
          | some accessToken, some refreshToken =>
            match userinfoEmail with
            | .error _ =>
                ⟨.redirect 500 "/settings?error=oauth_failed", some userId, conns, nextId⟩
            | .ok none =>
                ⟨.redirect 400 "/settings?error=email_missing", some userId, conns, nextId⟩
            | .ok (some email) =>
              let expiryDate := tokens.expiry_date.getD (now + 3600 * 1000)
              let s1 := createConnection conns nextId now
                ⟨userId, "gmail", accessToken, some refreshToken, expiryDate, email⟩
              let s2 := createConnection s1.1 s1.2 now
                ⟨userId, "google_calendar", accessToken, some refreshToken, expiryDate, email⟩
              ⟨.redirect 302 "/settings?success=google_connected", none, s2.1, s2.2⟩
          | _, _ =>
              ⟨.redirect 400 "/settings?error=tokens_missing", some userId, conns, nextId⟩

/-- Microsoft OAuth callback (`GET /api/auth/microsoft/callback`), mirroring
the Google one: token exchange against the Microsoft endpoint, identity from
Microsoft Graph (`userInfo.mail`), expiry computed as now plus
`expires_in` seconds, and one outlook plus one outlook_calendar
Connection on success. -/
def microsoftCallback (users : List User) (conns : ConnStore) (nextId : Nat) (now : Int)
    (hasMicrosoftCreds : Bool) (code : Option String) (oauthState : Option Nat)
    (reqUser : Option Nat) (exchange : Except Unit MsTokens)
    (userinfoMail : Except Unit (Option String)) : CallbackResult :=
  match code, oauthState with
  | none, _ => ⟨.redirect 400 "/settings?error=oauth_failed", oauthState, conns, nextId⟩
  | some _, none => ⟨.redirect 400 "/settings?error=oauth_failed", oauthState, conns, nextId⟩
  | some _, some userId =>
    if hasMicrosoftCreds = false then
      let r := handleOAuthSimulation users conns nextId now reqUser "microsoft"
      ⟨r.1, some userId, r.2.1, r.2.2⟩
    else
      match getUser users userId with
      | none => ⟨.redirect 404 "/settings?error=user_not_found", some userId, conns, nextId⟩
      | some _ =>
        match exchange with
        | .error _ => ⟨.redirect 500 "/settings?error=oauth_failed", some userId, conns, nextId⟩
        | .ok tokens =>
          match tokens.access_token, tokens.refresh_token with
          | some accessToken, some refreshToken =>
            match userinfoMail with
            | .error _ =>
                ⟨.redirect 500 "/settings?error=oauth_failed", some userId, conns, nextId⟩
            | .ok none =>
                ⟨.redirect 400 "/settings?error=email_missing", some userId, conns, nextId⟩
            | .ok (some mail) =>
              let expiryDate := now + tokens.expires_in * 1000
              let s1 := createConnection conns nextId now
                ⟨userId, "outlook", accessToken, some refreshToken, expiryDate, mail⟩
              let s2 := createConnection s1.1 s1.2 now
                ⟨userId, "outlook_calendar", accessToken, some refreshToken, expiryDate, mail⟩
              ⟨.redirect 302 "/settings?success=microsoft_connected", none, s2.1, s2.2⟩
          | _, _ =>
              ⟨.redirect 400 "/settings?error=tokens_missing", some userId, conns, nextId⟩

/-- C3: simulated OAuth success for provider google, starting from a user with
no existing Connections: the handler redirects to the settings success page
and the user's Connection records are afterwards exactly a gmail record and a
google_calendar record, both carrying the access token
`simulated-access-token` and the same expiry of one hour past the simulation
time. -/
theorem handleOAuthSimulation_google_two_connections (users : List User) (conns : ConnStore)
    (nextId : Nat) (now : Int) (u : Nat) (user : User)
    (hu : getUser users u = some user)
    (hnone : ∀ c ∈ conns, c.userId ≠ u) :
    (handleOAuthSimulation users conns nextId now (some u) "google").1 =
      .redirect 302 "/settings?success=simulated_oauth" ∧
    getConnectionsByUserId (handleOAuthSimulation users conns nextId now (some u) "google").2.1
        u =
      [⟨nextId, u, "gmail", "simulated-access-token", some "simulated-refresh-token",
          now + 3600 * 1000, user.email, now⟩,
        ⟨nextId + 1, u, "google_calendar", "simulated-access-token",
          some "simulated-refresh-token", now + 3600 * 1000, user.email, now⟩] := by
  have hg : getConnection conns u "gmail" = none :=
    getConnection_eq_none.mpr (fun c hc h => hnone c hc h.1)
  have hg2 : getConnection
      (conns ++ [⟨nextId, u, "gmail", "simulated-access-token",
        some "simulated-refresh-token", now + 3600000, user.email, now⟩])
      u "google_calendar" = none := by
    rw [getConnection_eq_none]
    intro c hc hcs
    rcases List.mem_append.mp hc with h | h
    · exact hnone c h hcs.1
    · simp only [List.mem_singleton] at h
      subst h
      simp at hcs
  have hres : handleOAuthSimulation users conns nextId now (some u) "google" =
      (.redirect 302 "/settings?success=simulated_oauth",
        conns ++ [⟨nextId, u, "gmail", "simulated-access-token",
            some "simulated-refresh-token", now + 3600 * 1000, user.email, now⟩] ++
          [⟨nextId + 1, u, "google_calendar", "simulated-access-token",
            some "simulated-refresh-token", now + 3600 * 1000, user.email, now⟩],
        nextId + 2) := by
    simp [handleOAuthSimulation, hu, hg, createConnection, hg2]
  rw [hres]
  have hfil : conns.filter (fun c => c.userId == u) = [] := by
    rw [List.filter_eq_nil_iff]
    intro c hc
    simp only [beq_iff_eq]
    exact hnone c hc
  simp [getConnectionsByUserId, List.filter_append, hfil]

/-- C3 witness: the demo user with an empty connection store. -/
theorem handleOAuthSimulation_google_two_connections_witness :
    (handleOAuthSimulation [⟨1, "emily@example.com"⟩] [] 1 0 (some 1) "google").1 =
      .redirect 302 "/settings?success=simulated_oauth" :=
  (handleOAuthSimulation_google_two_connections [⟨1, "emily@example.com"⟩] [] 1 0 1
    ⟨1, "emily@example.com"⟩ (by decide) (by decide)).1

theorem handleOAuthSimulation_fst (users : List User) (conns : ConnStore) (nextId : Nat)
    (now : Int) (reqUser : Option Nat) (s : String) :
    (handleOAuthSimulation users conns nextId now reqUser s).1 = .json 500 ∨
    (handleOAuthSimulation users conns nextId now reqUser s).1 = .json 404 ∨
    (handleOAuthSimulation users conns nextId now reqUser s).1 =
      .redirect 302 "/settings?success=simulated_oauth" := by
  unfold handleOAuthSimulation
  cases reqUser with
  | none => simp
  | some uid =>
    cases hu : getUser users uid with
    | none => simp [hu]
    | some user =>
      by_cases hg : s = "google"
      · simp [hu, hg]
      · by_cases hm : s = "microsoft" <;> simp [hu, hg, hm]

/-- C2 counterexample: a Google callback invocation with a stashed
`oauthState`, configured credentials, an existing user, and an exchange that
returns no refresh token takes the `tokens_missing` failure path and completes
with the stashed session state still present, so the state is not cleared on
every outcome. -/
theorem oauthState_not_cleared_counterexample :
    (googleCallback [⟨1, "emily@example.com"⟩] [] 1 0 true (some "authcode") (some 1)
        (some 1) (.ok ⟨some "at", none, none⟩) (.ok (some "emily@example.com"))).oauthState =
      some 1 ∧
    (googleCallback [⟨1, "emily@example.com"⟩] [] 1 0 true (some "authcode") (some 1)
        (some 1) (.ok ⟨some "at", none, none⟩) (.ok (some "emily@example.com"))).response =
      .redirect 400 "/settings?error=tokens_missing" :=
  ⟨rfl, rfl⟩

/-- C2 amended: for every callback invocation (Google or Microsoft) that
reaches the handler with a stashed `oauthState`, the stashed state is cleared
exactly on the success path; on every failure path (simulation fallback,
missing user, thrown exchange error, missing tokens, thrown identity error,
missing identity email) it is left in place. -/
theorem oauthState_cleared_iff_success (users : List User) (conns : ConnStore)
    (nextId : Nat) (now : Int) (hasCreds : Bool) (code : Option String) (u : Nat)
    (reqUser : Option Nat) (gexchange : Except Unit GTokens)
    (ginfo : Except Unit (Option String)) (mexchange : Except Unit MsTokens)
    (minfo : Except Unit (Option String)) :
    ((googleCallback users conns nextId now hasCreds code (some u) reqUser gexchange
        ginfo).oauthState = none ↔
      (googleCallback users conns nextId now hasCreds code (some u) reqUser gexchange
        ginfo).response = .redirect 302 "/settings?success=google_connected") ∧
    ((microsoftCallback users conns nextId now hasCreds code (some u) reqUser mexchange
        minfo).oauthState = none ↔
      (microsoftCallback users conns nextId now hasCreds code (some u) reqUser mexchange
        minfo).response = .redirect 302 "/settings?success=microsoft_connected") := by
  constructor
  · unfold googleCallback
    cases code with
    | none => simp
    | some c =>
      cases hcr : hasCreds with
      | false =>
        rcases handleOAuthSimulation_fst users conns nextId now reqUser "google" with h | h | h <;>
          simp [h]
      | true =>
        cases hgu : getUser users u with
        | none => simp [hgu]
        | some user =>
          cases gexchange with
          | error e => simp [hgu]
          | ok tokens =>
            rcases tokens with ⟨gat, grt, ged⟩
            cases gat with
            | none => simp [hgu]
            | some a =>
              cases grt with
              | none => simp [hgu]
              | some r =>
                cases ginfo with
                | error e => simp [hgu]
                | ok em =>
                  cases em with
                  | none => simp [hgu]
                  | some email => simp [hgu]
  · unfold microsoftCallback
    cases code with
    | none => simp
    | some c =>
      cases hcr : hasCreds with
      | false =>
        rcases handleOAuthSimulation_fst users conns nextId now reqUser "microsoft" with h | h | h <;>
          simp [h]
      | true =>
        cases hgu : getUser users u with
        | none => simp [hgu]
        | some user =>
          cases mexchange with
          | error e => simp [hgu]
          | ok tokens =>
            rcases tokens with ⟨mat, mrt, mei⟩
            cases mat with
            | none => simp [hgu]
            | some a =>
              cases mrt with
              | none => simp [hgu]
              | some r =>
                cases minfo with
                | error e => simp [hgu]
                | ok em =>
                  cases em with
                  | none => simp [hgu]
                  | some mail => simp [hgu]

/-- C2 amended witness: the success path of the Google callback at a concrete
input clears the stashed state. -/
theorem oauthState_cleared_iff_success_witness :
    (googleCallback [⟨1, "emily@example.com"⟩] [] 1 0 true (some "authcode") (some 1)
        (some 1) (.ok ⟨some "at", some "rt", some 99⟩)
        (.ok (some "emily@example.com"))).oauthState = none :=
  (oauthState_cleared_iff_success [⟨1, "emily@example.com"⟩] [] 1 0 true (some "authcode")
      1 (some 1) (.ok ⟨some "at", some "rt", some 99⟩) (.ok (some "emily@example.com"))
      (.ok ⟨some "at", some "rt", 60⟩) (.ok (some "m@x"))).1.mpr rfl

/-- Credentials object carried by an `OAuth2Client` handle
(`setCredentials` payload): each field may be absent. -/
structure Credentials where
  access_token : Option String
  refresh_token : Option String
  expiry_date : Option Int
  deriving Repr, DecidableEq

/-- Result of `getAuthorizedOAuth2Client`: the returned handle (the
credentials loaded into the client, or `none` for the null return), the
connection store afterwards, and how many token-refresh calls were made. -/
structure AuthClientResult where
  client : Option Credentials
  conns : ConnStore
  refreshCalls : Nat
  deriving Repr, DecidableEq

/-- Token refresh gate (`getAuthorizedOAuth2Client` in `oauthService.ts`).
Parameters: whether Google credentials are configured, the store, the current
time, the outcome the provider would give to one refresh call, and the
(user, service) pair. Per the source: null when no Connection exists; for a
connection whose token is the simulated sentinel, null without credentials and
otherwise a placeholder handle carrying the simulated pair and a fresh
one-hour expiry; null for a real connection without configured credentials;
otherwise a client is loaded with the stored tokens and, when
`currentDate >= expiryDate`, exactly one refresh call is made. On a refresh
success carrying both a new access token and a new expiry the source then
calls `storage.updateConnection`, but no storage class (`IStorage`,
`MemStorage`, `DatabaseStorage`) defines `updateConnection`, so that call
throws inside the inner try and the catch falls through; hence in every
refresh branch the stale client is returned and the store is unchanged. -/
def getAuthorizedOAuth2Client (hasGoogleCreds : Bool) (conns : ConnStore) (now : Int)
    (refresh : Except Unit Credentials) (userId : Nat) (service : String) :
    AuthClientResult :=
  match getConnection conns userId service with
  | none => ⟨none, conns, 0⟩
  | some connection =>
    if connection.accessToken = "simulated-access-token" then
      if hasGoogleCreds = false then ⟨none, conns, 0⟩
      else
        ⟨some ⟨some "simulated-access-token", some "simulated-refresh-token",
          some (now + 3600 * 1000)⟩, conns, 0⟩
    else if hasGoogleCreds = false then ⟨none, conns, 0⟩
    else
      let client : Credentials :=
        ⟨some connection.accessToken, connection.refreshToken, some connection.tokenExpiry⟩
      if connection.tokenExpiry ≤ now then
        match refresh with
        | .error _ => ⟨some client, conns, 1⟩
        | .ok credentials =>
          match credentials.access_token, credentials.expiry_date with
          | some _, some _ => ⟨some client, conns, 1⟩
          | _, _ => ⟨some client, conns, 1⟩
      else ⟨some client, conns, 0⟩

/-- C1 evaluated at the failing input: user 1 holds a real (non-simulated)
gmail Connection whose expiry 1000 lies before now = 2000, Google credentials
are configured, and the refresh call succeeds with a fresh token and expiry.
Exactly one refresh call is made, but the returned handle still carries the
stale access token and expiry, and the store is unchanged: the new token and
expiry are not persisted, because the persist step calls the nonexistent
`storage.updateConnection`. The claimed persistence therefore does not happen
even though refresh succeeded. -/
theorem refreshGate_persist_bug :
    getAuthorizedOAuth2Client true
        [⟨5, 1, "gmail", "real-token", some "real-refresh", 1000, "a@b", 0⟩] 2000
        (.ok ⟨some "new-token", some "new-refresh", some 999999⟩) 1 "gmail" =
      ⟨some ⟨some "real-token", some "real-refresh", some 1000⟩,
        [⟨5, 1, "gmail", "real-token", some "real-refresh", 1000, "a@b", 0⟩], 1⟩ ∧
    getAuthorizedOAuth2Client true
        [⟨5, 1, "gmail", "real-token", some "real-refresh", 9000, "a@b", 0⟩] 2000
        (.ok ⟨some "new-token", some "new-refresh", some 999999⟩) 1 "gmail" =
      ⟨some ⟨some "real-token", some "real-refresh", some 9000⟩,
        [⟨5, 1, "gmail", "real-token", some "real-refresh", 9000, "a@b", 0⟩], 0⟩ :=
  ⟨rfl, rfl⟩

/-- C8 counterexample: with no Google credentials configured in the
environment, a stored simulated Connection makes `getAuthorizedOAuth2Client`
return null rather than a placeholder handle, so the claimed
credentials-independence is false. -/
theorem refreshGate_simulated_counterexample :
    getAuthorizedOAuth2Client false
        [⟨5, 1, "gmail", "simulated-access-token", some "simulated-refresh-token", 99999,
          "a@b", 0⟩] 2000 (.error ()) 1 "gmail" =
      ⟨none,
        [⟨5, 1, "gmail", "simulated-access-token", some "simulated-refresh-token", 99999,
          "a@b", 0⟩], 0⟩ :=
  rfl

/-- C8 amended: for a stored Connection whose access token is the simulated
sentinel, `getAuthorizedOAuth2Client` makes no refresh call and leaves the
store unchanged, and it returns the placeholder handle (simulated token pair,
expiry one hour from now) exactly when Google credentials are configured;
with no credentials configured it returns no handle. -/
theorem refreshGate_simulated (hasGoogleCreds : Bool) (conns : ConnStore) (now : Int)
    (refresh : Except Unit Credentials) (u : Nat) (s : String) (c : Connection)
    (hc : getConnection conns u s = some c)
    (hsim : c.accessToken = "simulated-access-token") :
    getAuthorizedOAuth2Client hasGoogleCreds conns now refresh u s =
      ⟨if hasGoogleCreds then
          some ⟨some "simulated-access-token", some "simulated-refresh-token",
            some (now + 3600 * 1000)⟩
        else none, conns, 0⟩ := by
  unfold getAuthorizedOAuth2Client
  rw [hc]
  simp only [hsim, if_pos rfl]
  cases hasGoogleCreds <;> simp

/-- C8 amended witness: the simulated connection with credentials
configured yields the placeholder handle. -/
theorem refreshGate_simulated_witness :
    getAuthorizedOAuth2Client true
        [⟨5, 1, "gmail", "simulated-access-token", some "simulated-refresh-token", 99999,
          "a@b", 0⟩] 2000 (.error ()) 1 "gmail" =
      ⟨some ⟨some "simulated-access-token", some "simulated-refresh-token",
        some (2000 + 3600 * 1000)⟩,
        [⟨5, 1, "gmail", "simulated-access-token", some "simulated-refresh-token", 99999,
          "a@b", 0⟩], 0⟩ :=
  refreshGate_simulated true _ 2000 (.error ()) 1 "gmail"
    ⟨5, 1, "gmail", "simulated-access-token", some "simulated-refresh-token", 99999,
      "a@b", 0⟩ (by decide) (by decide)

theorem pairwise_insertByStart {e : CalendarEvent} {l : List CalendarEvent}
    (h : List.Pairwise (fun a b => a.startTime ≤ b.startTime) l) :
    List.Pairwise (fun a b => a.startTime ≤ b.startTime) (insertByStart e l) := by
  induction l with
  | nil => simp [insertByStart]
  | cons f fs ih =>
    rcases List.pairwise_cons.mp h with ⟨hf, hfs⟩
    simp only [insertByStart]
    split
    · next hef =>
      refine List.pairwise_cons.mpr ⟨?_, h⟩
      intro b hb
      rcases List.mem_cons.mp hb with rfl | hb
      · exact hef
      · exact le_trans hef (hf b hb)
    · next hef =>
      refine List.pairwise_cons.mpr ⟨?_, ih hfs⟩
      intro b hb
      rcases mem_insertByStart.mp hb with rfl | hb
      · omega
      · exact hf b hb

theorem sortByStart_sorted (l : List CalendarEvent) :
    List.Pairwise (fun a b => a.startTime ≤ b.startTime) (sortByStart l) := by
  induction l with
  | nil => simp [sortByStart]
  | cons e es ih => exact pairwise_insertByStart ih

/-- One day in milliseconds minus one: `endOfDay` is `startOfDay` plus
23:59:59.999. -/
def endOfDayOffset : Int := 86399999

/-- The `MemStorage.getCalendarEvents` operation: keep the user's events whose
start time falls inside the requested day (from `startOfDay`, the midnight
timestamp of the date, through `endOfDay` inclusive), sorted ascending by
start time. -/
def memGetCalendarEvents (events : List CalendarEvent) (userId : Nat)
    (startOfDay : Int) : List CalendarEvent :=
  sortByStart (events.filter (fun e =>
    e.userId == userId && decide (startOfDay ≤ e.startTime) &&
      decide (e.startTime ≤ startOfDay + endOfDayOffset)))

/-- The `DatabaseStorage.getCalendarEvents` operation: the raw SQL selects
every row of the user (`WHERE user_id = ...` only) ordered ascending by start
time; the `date` argument does not occur in the query. -/
def dbGetCalendarEvents (events : List CalendarEvent) (userId : Nat)
    (date : String) : List CalendarEvent :=
  sortByStart (events.filter (fun e => e.userId == userId))

/-- C10: `DatabaseStorage.getCalendarEvents` ignores its date argument — any
two dates give the same result, namely all of the user's events ordered
ascending by start time — whereas `MemStorage.getCalendarEvents` keeps
exactly the user's events of the requested day. -/
theorem dbGetCalendarEvents_ignores_date :
    (∀ (evs : List CalendarEvent) (u : Nat) (d1 d2 : String),
      dbGetCalendarEvents evs u d1 = dbGetCalendarEvents evs u d2) ∧
    (∀ (evs : List CalendarEvent) (u : Nat) (d : String),
      List.Pairwise (fun a b => a.startTime ≤ b.startTime) (dbGetCalendarEvents evs u d)) ∧
    (∀ (evs : List CalendarEvent) (u : Nat) (d : String) (e : CalendarEvent),
      e ∈ dbGetCalendarEvents evs u d ↔ e ∈ evs ∧ e.userId = u) ∧
    (∀ (evs : List CalendarEvent) (u : Nat) (day : Int) (e : CalendarEvent),
      e ∈ memGetCalendarEvents evs u day ↔
        e ∈ evs ∧ e.userId = u ∧ day ≤ e.startTime ∧ e.startTime ≤ day + endOfDayOffset) := by
  refine ⟨fun evs u d1 d2 => rfl, fun evs u d => sortByStart_sorted _, ?_, ?_⟩
  · intro evs u d e
    simp [dbGetCalendarEvents, mem_sortByStart, List.mem_filter]
  · intro evs u day e
    simp [memGetCalendarEvents, mem_sortByStart, List.mem_filter, and_assoc]

/-- C10 witness: on a two-day, two-event store, the database variant returns
both events of user 1 for an arbitrary date string. -/
theorem dbGetCalendarEvents_ignores_date_witness :
    ⟨1, 1, "Day one", 100, 200⟩ ∈
      dbGetCalendarEvents
        [⟨1, 1, "Day one", 100, 200⟩, ⟨2, 1, "Day two", 86500000, 86600000⟩] 1
        "2025-01-01" :=
  (dbGetCalendarEvents_ignores_date.2.2.1
      [⟨1, 1, "Day one", 100, 200⟩, ⟨2, 1, "Day two", 86500000, 86600000⟩] 1
      "2025-01-01" ⟨1, 1, "Day one", 100, 200⟩).mpr (by decide)

/-- Email row (`emails` in `shared/schema.ts`); only the fields read by the
fallback generators are carried (`subject` is nullable there). -/
structure Email where
  subject : Option String
  isRead : Bool
  isPriority : Bool
  deriving Repr, DecidableEq

/-- Whitespace as matched by the `\s` class of the source regexes (the ASCII
members; the Unicode ones are not exercised here). -/
def isJsWhitespace (c : Char) : Bool :=
  c = ' ' || c = '\t' || c = '\n' || c = '\r' || c = '\x0b' || c = '\x0c'

/-- The `replace` of every whitespace run by a single space
(`emailBody.replace(/\s+/g, ' ')` in `generateFallbackSummary`); the flag
records whether the previous character was whitespace. -/
def collapseWsGo : Bool → List Char → List Char
  | _, [] => []
  | prevWs, c :: cs =>
    if isJsWhitespace c then
      if prevWs then collapseWsGo true cs
      else ' ' :: collapseWsGo true cs
    else c :: collapseWsGo false cs

/-- JS `String.prototype.trim`: drop leading and trailing whitespace. -/
def trimWs (l : List Char) : List Char :=
  ((l.dropWhile isJsWhitespace).reverse.dropWhile isJsWhitespace).reverse

/-- A sentence-ending mark of the split regex `[.!?](\s|$)`. -/
def isSentenceMark (c : Char) : Bool :=
  c = '.' || c = '!' || c = '?'

/-- The text before the first match of `[.!?](\s|$)`
(`cleanText.split(/[.!?](\s|$)/)[0]`). -/
def splitSentence : List Char → List Char
  | [] => []
  | c :: cs =>
    if isSentenceMark c && (match cs with | [] => true | d :: _ => isJsWhitespace d) then []
    else c :: splitSentence cs

/-- Fallback email summary without the completion API
(`generateFallbackSummary`): the fixed no-content text for an empty or
all-whitespace body; otherwise the first sentence when it is longer than 10
characters (clipped to 147 plus an ellipsis past 150), else the first 150
characters of the cleaned text (plus an ellipsis when clipped). Lengths count
characters where the source counts UTF-16 units. -/
def generateFallbackSummary (emailBody : String) : String :=
  if trimWs emailBody.toList = [] then "No email content available."
  else
    let cleanText := trimWs (collapseWsGo false emailBody.toList)
    let firstSentence := splitSentence cleanText
    if 10 < firstSentence.length then
      if 150 < firstSentence.length then String.mk (firstSentence.take 147) ++ "..."
      else String.mk firstSentence
    else
      String.mk (cleanText.take 150) ++ (if 150 < cleanText.length then "..." else "")

/-- The three fixed generic replies of `generateFallbackReplies`, with the
subject spliced in when nonempty. -/
def genericReplies (subject : String) : List String :=
  ["Thank you for your email" ++
      (if subject ≠ "" then " regarding " ++ subject else "") ++
      ". I\x27ll review this and get back to you shortly with more details.",
   "I appreciate you reaching out" ++
      (if subject ≠ "" then " about " ++ subject else "") ++
      ". I\x27ll look into this matter and respond with my thoughts soon.",
   "Thanks for your message. I\x27ll consider the information you\x27ve shared and follow up with you as soon as possible."]

/-- One step of the comparator-driven insertion sort modelling
`Array.prototype.sort(() => 0.5 - Math.random())`: each comparator call
consumes one coin of the stream (`coins k` true meaning the random comparator
returned a positive value, which moves the inserted element in front); the
second component is the index of the next unused coin. -/
def insertRand {α : Type} (coins : Nat → Bool) (x : α) :
    List α → Nat → List α × Nat
  | [], k => ([x], k)
  | y :: ys, k =>
    if coins k then (x :: y :: ys, k + 1)
    else
      let r := insertRand coins x ys (k + 1)
      (y :: r.1, r.2)

/-- Comparator-driven insertion sort consuming the coin stream; the result is
some permutation of the input depending on the coins, which is the observable
behavior of the JS sort under the inconsistent random comparator. -/
def sortRand {α : Type} (coins : Nat → Bool) : List α → Nat → List α × Nat
  | [], k => ([], k)
  | x :: xs, k =>
    let r := sortRand coins xs k
    insertRand coins x r.1 r.2

/-- Fallback smart replies (`generateFallbackReplies`): shuffle the three
generic replies with the random comparator and return the first two. -/
def generateFallbackReplies (subject : String) (coins : Nat → Bool) : List String :=
  ((sortRand coins (genericReplies subject) 0).1).take 2

/-- The `generateSmartReplies` path taken when the completion API key is
absent: fall back to the generic replies on `email.subject || ""`; the
requested tone is not consulted. -/
def generateSmartRepliesNoKey (email : Email) (tone : String)
    (coins : Nat → Bool) : List String :=
  generateFallbackReplies (email.subject.getD "") coins

/-- The `generateEmailSummary` path taken when the completion API key is
absent: the fallback summary, which consumes no randomness. -/
def generateEmailSummaryNoKey (emailBody : String) (coins : Nat → Bool) : String :=
  generateFallbackSummary emailBody

/-- Fallback daily brief (`generateFallbackBrief`): counts of unread and
priority emails and of events, a templated summary sentence, and up to four
priorities, padded with a generic one below three. `fmtTime` stands for the
locale-dependent `toLocaleTimeString` rendering of the first event's start. -/
def generateFallbackBrief (emails : List Email) (events : List CalendarEvent)
    (fmtTime : Int → String) : String × List String :=
  let unreadCount := (emails.filter (fun e => !e.isRead)).length
  let priorityCount := (emails.filter (fun e => e.isPriority)).length
  let eventCount := events.length
  let summary := "You have " ++ toString unreadCount ++ " unread emails" ++
    (if 0 < priorityCount then
        " (" ++ toString priorityCount ++ " marked as priority)" else "") ++
    " and " ++ toString eventCount ++ " events scheduled for today."
  let priorities :=
    (if 0 < unreadCount then
        ["Check your inbox - " ++ toString unreadCount ++ " unread emails waiting"]
      else []) ++
    (if 0 < priorityCount then
        ["Respond to " ++ toString priorityCount ++ " priority emails"]
      else []) ++
    (if 0 < eventCount then
        ["Prepare for today\x27s " ++ toString eventCount ++ " meetings"] ++
        (match events with
          | [] => []
          | firstEvent :: _ =>
              ["Get ready for " ++ firstEvent.title ++ " at " ++ fmtTime firstEvent.startTime])
      else [])
  let priorities :=
    if priorities.length < 3 then priorities ++ ["Plan your schedule for the rest of the week"]
    else priorities
  (summary, priorities)

/-- The `generateDailyBrief` path taken when the completion API key is absent:
the fallback brief, which consumes no randomness. -/
def generateDailyBriefNoKey (emails : List Email) (events : List CalendarEvent)
    (fmtTime : Int → String) (coins : Nat → Bool) : String × List String :=
  generateFallbackBrief emails events fmtTime

/-- C9 counterexample: with no API key, two calls to `generateSmartReplies`
on the same email and tone can return different outputs — the random
comparator shuffle makes the reply order depend on the random stream (all
comparator calls positive versus all nonpositive give different pairs), so
the fallback generation is not deterministic for smart replies. -/
theorem fallbackReplies_nondeterministic :
    generateSmartRepliesNoKey ⟨some "Hello", false, false⟩ "professional" (fun _ => true) ≠
      generateSmartRepliesNoKey ⟨some "Hello", false, false⟩ "professional"
        (fun _ => false) := by
  decide

theorem insertRand_length {α : Type} (coins : Nat → Bool) (x : α) :
    ∀ (l : List α) (k : Nat), ((insertRand coins x l k).1).length = l.length + 1
  | [], _ => rfl
  | y :: ys, k => by
      simp only [insertRand]
      split
      · rfl
      · simpa using insertRand_length coins x ys (k + 1)

theorem sortRand_length {α : Type} (coins : Nat → Bool) :
    ∀ (l : List α) (k : Nat), ((sortRand coins l k).1).length = l.length
  | [], _ => rfl
  | x :: xs, k => by
      simp only [sortRand]
      simpa [insertRand_length] using sortRand_length coins xs k

theorem mem_insertRand {α : Type} {coins : Nat → Bool} {x a : α} :
    ∀ {l : List α} {k : Nat}, a ∈ (insertRand coins x l k).1 → a = x ∨ a ∈ l
  | [], k, h => by simpa [insertRand] using h
  | y :: ys, k, h => by
      simp only [insertRand] at h
      split at h
      · simpa using h
      · simp only [List.mem_cons] at h
        rcases h with rfl | h
        · exact Or.inr (List.mem_cons_self _ _)
        · rcases mem_insertRand h with rfl | h
          · exact Or.inl rfl
          · exact Or.inr (List.mem_cons_of_mem _ h)

theorem mem_sortRand {α : Type} {coins : Nat → Bool} {a : α} :
    ∀ {l : List α} {k : Nat}, a ∈ (sortRand coins l k).1 → a ∈ l
  | [], k, h => by simp [sortRand] at h
  | x :: xs, k, h => by
      simp only [sortRand] at h
      rcases mem_insertRand h with rfl | h
      · exact List.mem_cons_self _ _
      · exact List.mem_cons_of_mem _ (mem_sortRand h)

/-- C9 amended: with no API key, `generateEmailSummary` and
`generateDailyBrief` are deterministic — identical inputs give identical
outputs whatever the random stream — while `generateSmartReplies` returns two
replies drawn from the fixed list of three generic replies in an order that
depends on the random stream (and so can differ between two calls on
identical inputs). -/
theorem aiFallback_determinism :
    (∀ (body : String) (c1 c2 : Nat → Bool),
      generateEmailSummaryNoKey body c1 = generateEmailSummaryNoKey body c2) ∧
    (∀ (emails : List Email) (events : List CalendarEvent) (fmt : Int → String)
        (c1 c2 : Nat → Bool),
      generateDailyBriefNoKey emails events fmt c1 =
        generateDailyBriefNoKey emails events fmt c2) ∧
    (∀ (email : Email) (tone : String) (coins : Nat → Bool),
      (generateSmartRepliesNoKey email tone coins).length = 2 ∧
      ∀ r ∈ generateSmartRepliesNoKey email tone coins,
        r ∈ genericReplies (email.subject.getD "")) := by
  refine ⟨fun _ _ _ => rfl, fun _ _ _ _ _ => rfl, fun email tone coins => ⟨?_, ?_⟩⟩
  · simp only [generateSmartRepliesNoKey, generateFallbackReplies, List.length_take,
      sortRand_length]
    rfl
  · intro r hr
    simp only [generateSmartRepliesNoKey, generateFallbackReplies] at hr
    exact mem_sortRand (List.mem_of_mem_take hr)

/-- C9 amended witness: the smart-reply fallback at a concrete email returns
exactly two replies. -/
theorem aiFallback_determinism_witness :
    (generateSmartRepliesNoKey ⟨some "Hi", false, false⟩ "professional"
      (fun _ => false)).length = 2 :=
  (aiFallback_determinism.2.2 ⟨some "Hi", false, false⟩ "professional" (fun _ => false)).1

end InboxCal
